import Mathlib

/-
Verification of the run-script-rs library (src/lib.rs): a cross-platform
wrapper that runs a shell script, captures its exit status / stdout /
stderr, normalizes the captured text, and exposes a platform-dependent
success predicate.  The platform process launcher (the run_script crate's
runner on unix, the powershell engine on windows) is an external
collaborator, modelled here as an explicit argument delivering the raw
result of the launch.
-/

/-- The two mutually exclusive build-time strategies selected by cfg:
the POSIX-shell (unix) strategy and the hosted-scripting-engine (windows)
strategy. -/
inductive Strategy
  | unix
  | windows
deriving DecidableEq, Repr

/-- Target operating systems distinguished by the cfg attributes in
spawn_script: cfg of target os linux versus everything else. -/
inductive TargetOs
  | linux
  | macos
  | windows
  | other
deriving DecidableEq, Repr

/-- Whitespace classification of the source language standard library
(Unicode White_Space property), used by the trim of trailing whitespace. -/
def rustIsWhitespace (c : Char) : Bool :=
  let n := c.toNat
  n == 0x09 || n == 0x0A || n == 0x0B || n == 0x0C || n == 0x0D ||
  n == 0x20 || n == 0x85 || n == 0xA0 || n == 0x1680 ||
  (decide (0x2000 ≤ n) && decide (n ≤ 0x200A)) ||
  n == 0x2028 || n == 0x2029 || n == 0x202F || n == 0x205F || n == 0x3000

/-- Trailing-whitespace trim on a character list: remove the longest
all-whitespace suffix, keep the rest verbatim. -/
def trimEndList (l : List Char) : List Char :=
  (l.reverse.dropWhile rustIsWhitespace).reverse

/-- The normalization applied to each captured stream in src/lib.rs
(str trim of the end, lines 46-47 and 77, 81): removes trailing
whitespace (including trailing newlines) and keeps leading and interior
text verbatim. -/
def trimEnd (s : String) : String :=
  String.mk (trimEndList s.data)

/-- Execution status of a process: the triple defined in src/lib.rs
lines 93-101 (code, stdout, stderr). -/
structure ProcessOutput where
  code : Int
  stdout : String
  stderr : String
deriving DecidableEq, Repr

/-- ProcessOutput constructor, src/lib.rs lines 105-111. -/
def ProcessOutput.new (code : Int) (stdout : String) (stderr : String) :
    ProcessOutput :=
  { code := code, stdout := stdout, stderr := stderr }

/-- The derived success predicate, src/lib.rs lines 114-124: under the
windows cfg, code is zero and stderr empty; under the unix cfg, code is
zero. -/
def ProcessOutput.success (strat : Strategy) (self : ProcessOutput) : Bool :=
  match strat with
  | Strategy.windows => self.code == 0 && self.stderr.isEmpty
  | Strategy.unix => self.code == 0

/-- The Display implementation, src/lib.rs lines 127-131: the ordered
triple rendered with angle brackets and comma separators. -/
def ProcessOutput.display (self : ProcessOutput) : String :=
  "<" ++ toString self.code ++ ", " ++ self.stdout ++ ", " ++ self.stderr ++ ">"

/-- IoOptions of the external run_script crate: how a stream of the child
is wired. -/
inductive IoOptions
  | inherit
  | pipe
  | null
deriving DecidableEq, Repr

/-- ScriptOptions of the external run_script crate: the launch
configuration handed to the platform process launcher. -/
structure ScriptOptions where
  runner : Option String
  runner_args : Option (List String)
  working_directory : Option String
  input_redirection : IoOptions
  output_redirection : IoOptions
  exit_on_error : Bool
  print_commands : Bool
  env_vars : Option (List (String × String))
deriving DecidableEq, Repr

/-- Default options of the external run_script crate (ScriptOptions new):
no runner override, no working directory, inherited input, piped output
for capture, no eager exit, no echo, unmodified environment.  Used by the
unix branch of run_script (src/lib.rs line 39). -/
def ScriptOptions.new : ScriptOptions :=
  { runner := none
    runner_args := none
    working_directory := none
    input_redirection := IoOptions.inherit
    output_redirection := IoOptions.pipe
    exit_on_error := false
    print_commands := false
    env_vars := none }

/-- The runner chosen by spawn_script, src/lib.rs lines 9-12: bash is
forced on linux targets, every other target passes no override. -/
def spawnRunner (t : TargetOs) : Option String :=
  if t = TargetOs.linux then some ("bash") else none

/-- The fixed launch configuration built by spawn_script, src/lib.rs
lines 14-23. -/
def spawnOptions (t : TargetOs) : ScriptOptions :=
  { runner := spawnRunner t
    runner_args := none
    working_directory := none
    input_redirection := IoOptions.inherit
    output_redirection := IoOptions.inherit
    exit_on_error := true
    print_commands := true
    env_vars := none }

/-- A diagnostic line emitted on the verbose side channel by run_script:
either the pre-execution echo of the script and options (src/lib.rs
line 41) or the post-execution echo of the resulting triple (lines 50
and 59). -/
inductive LogLine
  | executing (script : String) (options : ScriptOptions)
  | result (s : ProcessOutput)
deriving DecidableEq, Repr

/-- Error raised by the external run_script crate when the launch or the
capture fails. -/
inductive ScriptError
  | failure (msg : String)
deriving DecidableEq, Repr

/-- The unix branch of run_script, src/lib.rs lines 37-53.  The external
call run_script run is the black box collaborator; its raw result (status
code, raw stdout, raw stderr) or error is passed in as raw.  Returns the
value of the function together with the list of diagnostic lines printed
on the verbose side channel, in order. -/
def run_script_unix (script : String) (verbose : Bool)
    (raw : Except ScriptError (Int × String × String)) :
    Except ScriptError ProcessOutput × List LogLine :=
  let options := ScriptOptions.new
  let pre : List LogLine :=
    if verbose then [LogLine.executing script options] else []
  match raw with
  | Except.error e => (Except.error e, pre)
  | Except.ok (status, out, err) =>
      let s : ProcessOutput :=
        { code := status
          stderr := trimEnd err
          stdout := trimEnd out }
      (Except.ok s, pre ++ (if verbose then [LogLine.result s] else []))

/-- Configuration of the hosted scripting engine session built by
PsScriptBuilder in run_powershell, src/lib.rs lines 68-73. -/
structure PsConfig where
  hidden : Bool
  no_profile : Bool
  non_interactive : Bool
  print_commands : Bool
deriving DecidableEq, Repr

/-- The builder chain of run_powershell, src/lib.rs lines 68-73: hidden,
no profile, non interactive, and command echo tied to the debug flag. -/
def psBuilder (debug : Bool) : PsConfig :=
  { hidden := true
    no_profile := true
    non_interactive := true
    print_commands := debug }

/-- The value returned by a successful run of the hosted scripting
engine (the Output type of the external powershell crate): an overall
success flag and the optionally captured stream texts (a stream text is
none when the engine could not retrieve it). -/
structure PsOutput where
  success : Bool
  stdout : Option String
  stderr : Option String
deriving DecidableEq, Repr

/-- Error raised by the external powershell crate when the invocation
fails (engine missing, or the engine itself reported failure). -/
inductive PsError
  | failure (msg : String)
deriving DecidableEq, Repr

/-- The type of the hosted scripting engine as a black box collaborator:
given the session configuration and the command string it returns the
engine output or an error. -/
def PsEngine : Type :=
  PsConfig → String → Except PsError PsOutput

/-- An engine that returns the same output whatever the configuration and
command: used to instantiate the black box on concrete raw results. -/
def constEngine (o : PsOutput) : PsEngine :=
  fun _ _ => Except.ok o

/-- An engine whose invocation fails with a fixed error: models the
external powershell crate when the command cannot be run successfully. -/
def errEngine (e : PsError) : PsEngine :=
  fun _ _ => Except.error e

/-- run_powershell, src/lib.rs lines 67-88: build the session
configuration, invoke the engine, propagate its error, otherwise trim
each captured stream (substituting the empty string when the stream text
is missing) and derive the code field from the engine success flag. -/
def run_powershell (engine : PsEngine) (command : String) (debug : Bool) :
    Except PsError ProcessOutput :=
  match engine (psBuilder debug) command with
  | Except.error e => Except.error e
  | Except.ok output =>
      let stdout := (output.stdout.map (fun x => trimEnd x)).getD ("")
      let stderr := (output.stderr.map (fun x => trimEnd x)).getD ("")
      Except.ok (ProcessOutput.new (if output.success then 0 else 1) stdout stderr)

/-- The windows branch of run_script, src/lib.rs lines 55-62: delegate to
run_powershell (passing verbose as the debug flag), propagate its error,
and echo the resulting triple on the verbose side channel. -/
def run_script_windows (engine : PsEngine) (script : String)
    (verbose : Bool) : Except PsError ProcessOutput × List LogLine :=
  match run_powershell engine script verbose with
  | Except.error e => (Except.error e, [])
  | Except.ok s => (Except.ok s, if verbose then [LogLine.result s] else [])

/- Helper lemmas about the trailing-whitespace trim. -/

/-- Every element of a takeWhile satisfies the predicate. -/
theorem mem_takeWhile_sat {p : Char → Bool} {l : List Char} {c : Char}
    (h : c ∈ l.takeWhile p) : p c = true := by
  induction l with
  | nil => simp [List.takeWhile] at h
  | cons a t ih =>
      rw [List.takeWhile_cons] at h
      by_cases hpa : p a = true
      · rw [if_pos hpa] at h
        rcases List.mem_cons.mp h with h1 | h2
        · exact h1 ▸ hpa
        · exact ih h2
      · rw [if_neg hpa] at h
        simp at h

/-- The head of a dropWhile, when present, falsifies the predicate. -/
theorem head_dropWhile_not {p : Char → Bool} {l : List Char} {c : Char}
    (h : (l.dropWhile p).head? = some c) : p c = false := by
  induction l with
  | nil => simp [List.dropWhile] at h
  | cons a t ih =>
      rw [List.dropWhile_cons] at h
      by_cases hpa : p a = true
      · rw [if_pos hpa] at h
        exact ih h
      · rw [if_neg hpa] at h
        simp at h
        exact h ▸ (Bool.not_eq_true _).mp hpa

/-- Decomposition of a list as its trim plus an all-whitespace suffix. -/
theorem trimEndList_decomp (l : List Char) :
    ∃ w, l = trimEndList l ++ w ∧ ∀ c ∈ w, rustIsWhitespace c = true := by
  refine ⟨(l.reverse.takeWhile rustIsWhitespace).reverse, ?_, ?_⟩
  · conv_lhs => rw [← List.reverse_reverse l,
      ← List.takeWhile_append_dropWhile (p := rustIsWhitespace) (l := l.reverse)]
    rw [List.reverse_append]
    rfl
  · intro c hc
    exact mem_takeWhile_sat (List.mem_reverse.mp hc)

/-- The trim never ends in whitespace. -/
theorem trimEndList_getLast_not_ws (l : List Char) (c : Char)
    (h : (trimEndList l).getLast? = some c) : rustIsWhitespace c = false := by
  unfold trimEndList at h
  rw [List.getLast?_reverse] at h
  exact head_dropWhile_not h

/-- A list of whitespace characters trims to the empty list. -/
theorem trimEndList_all_ws (l : List Char)
    (h : ∀ c ∈ l, rustIsWhitespace c = true) : trimEndList l = [] := by
  unfold trimEndList
  have : l.reverse.dropWhile rustIsWhitespace = [] := by
    rw [List.dropWhile_eq_nil_iff]
    intro c hc
    exact h c (List.mem_reverse.mp hc)
  rw [this]
  rfl

/-- C1: success is derived per the build-time strategy: on the unix
(POSIX-shell) strategy it holds iff the code is zero; on the windows
(hosted-scripting-engine) strategy it holds iff the code is zero and
stderr is empty; in particular a ProcessOutput with code zero and stderr
"some warning" fails on windows and succeeds on unix. -/
theorem success_strategy_rule (p : ProcessOutput) :
    (p.success Strategy.unix = true ↔ p.code = 0) ∧
    (p.success Strategy.windows = true ↔ (p.code = 0 ∧ p.stderr = "")) ∧
    (ProcessOutput.new 0 "" ("some warning")).success Strategy.windows = false ∧
    (ProcessOutput.new 0 "" ("some warning")).success Strategy.unix = true := by
  refine ⟨?_, ?_, by decide, by decide⟩
  · simp [ProcessOutput.success]
  · simp [ProcessOutput.success, String.isEmpty_iff]

/-- C6: the display form of a ProcessOutput is the ordered triple
rendered as the text of its code, stdout and stderr between angle
brackets, comma separated; in particular code 0, stdout a, stderr b
displays as the literal text between angle brackets 0, a, b. -/
theorem display_is_triple (p : ProcessOutput) :
    p.display =
      "<" ++ toString p.code ++ ", " ++ p.stdout ++ ", " ++ p.stderr ++ ">" ∧
    (ProcessOutput.new 0 ("a") ("b")).display = "<0, a, b>" := by
  exact ⟨rfl, by decide⟩

/-- C7: spawn_script forces the bash runner exactly on linux targets and
passes no interpreter override on every other target. -/
theorem spawn_runner_selection :
    spawnRunner TargetOs.linux = some ("bash") ∧
    spawnRunner TargetOs.macos = none ∧
    spawnRunner TargetOs.windows = none ∧
    spawnRunner TargetOs.other = none := by
  refine ⟨rfl, rfl, rfl, rfl⟩

/-- C8: the launch configuration of spawn_script is fixed on every
target: input and output streams inherited (not captured), unmodified
environment, no working directory override, eager exit on the first
failing command, and command echo enabled. -/
theorem spawn_options_fixed (t : TargetOs) :
    (spawnOptions t).input_redirection = IoOptions.inherit ∧
    (spawnOptions t).output_redirection = IoOptions.inherit ∧
    (spawnOptions t).env_vars = none ∧
    (spawnOptions t).working_directory = none ∧
    (spawnOptions t).exit_on_error = true ∧
    (spawnOptions t).print_commands = true := by
  refine ⟨rfl, rfl, rfl, rfl, rfl, rfl⟩

/-- C3: run_script hands back each captured stream with its trailing
whitespace (trailing newlines included) removed on both strategies; the
trim only removes an all-whitespace suffix and keeps leading and interior
text verbatim (the trimmed text is a verbatim prefix whose last character,
when present, is not whitespace); in particular the raw text X followed
by two newlines normalizes to X. -/
theorem run_script_trims_trailing_ws (script : String) (v : Bool)
    (status : Int) (out err : String) :
    (run_script_unix script v (Except.ok (status, out, err))).1 =
      Except.ok (ProcessOutput.new status (trimEnd out) (trimEnd err)) ∧
    run_powershell (constEngine (PsOutput.mk true (some out) (some err)))
        script v =
      Except.ok (ProcessOutput.new 0 (trimEnd out) (trimEnd err)) ∧
    (∃ w, out.data = (trimEnd out).data ++ w ∧ w.all rustIsWhitespace = true) ∧
    (trimEnd out).data.getLast?.all (fun c => !rustIsWhitespace c) = true ∧
    trimEnd ("X\n\n") = "X" := by
  refine ⟨rfl, rfl, ?_, ?_, by decide⟩
  · obtain ⟨w, hdecomp, hws⟩ := trimEndList_decomp out.data
    exact ⟨w, hdecomp, List.all_eq_true.mpr hws⟩
  · cases hglast : (trimEnd out).data.getLast? with
    | none => rfl
    | some c =>
        have hc := trimEndList_getLast_not_ws out.data c hglast
        simp [Option.all, hc]

/-- C4: for every script and every raw launcher outcome, the value
returned by run_script with verbose set equals the value returned with
verbose clear, on both strategies; on the hosted-engine strategy this
relies on the engine treating the command-echo flag of its configuration
as a pure side channel (the documented behavior of the external
powershell crate, whose print flag only echoes to the console). -/
theorem verbose_pure_side_channel (script : String)
    (raw : Except ScriptError (Int × String × String)) (eng : PsEngine)
    (heng : ∀ b c cmd, eng (psBuilder b) cmd = eng (psBuilder c) cmd) :
    (run_script_unix script true raw).1 =
      (run_script_unix script false raw).1 ∧
    (run_script_windows eng script true).1 =
      (run_script_windows eng script false).1 := by
  constructor
  · cases raw with
    | error e => rfl
    | ok t =>
        obtain ⟨status, out, err⟩ := t
        rfl
  · have h := heng true false script
    unfold run_script_windows run_powershell
    rw [h]
    cases eng (psBuilder false) script with
    | error e => rfl
    | ok o => rfl

/-- C4 witness: concrete instantiation on a piped unix raw result and a
constant engine. -/
theorem verbose_pure_side_channel_witness :
    (run_script_unix ("ls") true (Except.ok (0, "a\n", ""))).1 =
      (run_script_unix ("ls") false (Except.ok (0, "a\n", ""))).1 ∧
    (run_script_windows (constEngine (PsOutput.mk true (some ("ok")) none))
        ("ls") true).1 =
      (run_script_windows (constEngine (PsOutput.mk true (some ("ok")) none))
        ("ls") false).1 :=
  verbose_pure_side_channel ("ls") (Except.ok (0, "a\n", ""))
    (constEngine (PsOutput.mk true (some ("ok")) none))
    (fun _ _ _ => rfl)

/-- C9: on the hosted-scripting-engine strategy the code field of every
ProcessOutput produced by a successful run is computed from the engine
boolean success flag: it is 0 exactly when the engine reports success and
1 otherwise, so it is always 0 or 1 and never any other exit code. -/
theorem windows_code_is_boolean (o : PsOutput) (cmd : String) (v : Bool) :
    ∃ p, run_powershell (constEngine o) cmd v = Except.ok p ∧
      (p.code = 0 ∨ p.code = 1) ∧ (p.code = 0 ↔ o.success = true) := by
  refine ⟨ProcessOutput.new (if o.success then 0 else 1)
      ((o.stdout.map (fun x => trimEnd x)).getD (""))
      ((o.stderr.map (fun x => trimEnd x)).getD ("")), rfl, ?_, ?_⟩
  · cases h : o.success <;> simp [ProcessOutput.new]
  · cases h : o.success <;> simp [ProcessOutput.new]

/-- C10: on the hosted-scripting-engine strategy, a raw error stream made
only of whitespace together with engine success normalizes to an empty
stderr, so the returned ProcessOutput reports success: the success
predicate sees the trimmed text, not the raw stream. -/
theorem whitespace_stderr_still_success (cmd : String) (v : Bool)
    (w : String) (oOut : Option String)
    (hw : w.data.all rustIsWhitespace = true) :
    ∃ p, run_powershell (constEngine (PsOutput.mk true oOut (some w))) cmd v =
        Except.ok p ∧
      p.stderr = "" ∧ p.success Strategy.windows = true := by
  have htrim : trimEnd w = "" := by
    unfold trimEnd
    rw [trimEndList_all_ws w.data (List.all_eq_true.mp hw)]
  refine ⟨ProcessOutput.new 0 ((oOut.map (fun x => trimEnd x)).getD (""))
      (trimEnd w), rfl, htrim, ?_⟩
  simp [ProcessOutput.success, ProcessOutput.new, htrim]
  decide

/-- C10 witness: a single raw newline on the error stream under engine
success yields an empty stderr and a successful result. -/
theorem whitespace_stderr_still_success_witness :
    ∃ p, run_powershell
        (constEngine (PsOutput.mk true (some ("x")) (some ("\n"))))
        ("Get-Date") false = Except.ok p ∧
      p.stderr = "" ∧ p.success Strategy.windows = true :=
  whitespace_stderr_still_success ("Get-Date") false ("\n") (some ("x"))
    (by decide)

/-- C2 counterexample: on the hosted-scripting-engine strategy a script
naming a nonexistent command makes the engine invocation itself fail (the
repository windows test asserts an error result for the script
zhandubalm, src/lib.rs lines 219-221); run_script propagates that error,
so the result is not an Ok value carrying a nonzero code. -/
theorem nonexistent_cmd_windows_not_ok :
    ¬ ∃ p, (run_script_windows
        (errEngine (PsError.failure ("zhandubalm is not recognized")))
        ("zhandubalm") true).1 = Except.ok p := by
  rintro ⟨p, h⟩
  exact Except.noConfusion h

/-- C2 (amended): for a script naming a nonexistent command, on the
POSIX-shell strategy the shell run still completes with a nonzero status
and a nonempty error stream, so run_script returns Ok with a nonzero code
and nonempty stderr; on the hosted-scripting-engine strategy the engine
reports the failed invocation as an error, which run_script propagates as
an error value. -/
theorem nonexistent_cmd_behavior (script : String) (v : Bool)
    (status : Int) (out err : String) (e : PsError)
    (hstatus : status ≠ 0) (herr : trimEnd err ≠ "") :
    (∃ p, (run_script_unix script v (Except.ok (status, out, err))).1 =
        Except.ok p ∧ p.code ≠ 0 ∧ p.stderr ≠ "") ∧
    (run_script_windows (errEngine e) script v).1 = Except.error e := by
  constructor
  · exact ⟨ProcessOutput.new status (trimEnd out) (trimEnd err), rfl,
      hstatus, herr⟩
  · rfl

/-- C2 witness: the shell reports status 127 with a command-not-found
message on its error stream; the engine reports an invocation error. -/
theorem nonexistent_cmd_behavior_witness :
    (∃ p, (run_script_unix ("zhandubalm") true
        (Except.ok (127, (""), ("sh: 1: zhandubalm: not found\n")))).1 =
        Except.ok p ∧ p.code ≠ 0 ∧ p.stderr ≠ "") ∧
    (run_script_windows (errEngine (PsError.failure ("not recognized")))
        ("zhandubalm") true).1 =
      Except.error (PsError.failure ("not recognized")) :=
  nonexistent_cmd_behavior ("zhandubalm") true 127 ("")
    ("sh: 1: zhandubalm: not found\n") (PsError.failure ("not recognized"))
    (by decide) (by decide)

/-- C5 counterexample: when the engine cannot retrieve the stream texts
of a completed run (both stream texts missing), run_powershell does not
surface an error: it substitutes the empty string for each missing stream
and returns Ok. -/
theorem capture_missing_not_error :
    run_powershell (constEngine (PsOutput.mk true none none)) ("dir")
        false =
      Except.ok (ProcessOutput.new 0 ("") ("")) ∧
    ¬ ∃ e, run_powershell (constEngine (PsOutput.mk true none none)) ("dir")
        false = Except.error e := by
  refine ⟨rfl, ?_⟩
  rintro ⟨e, h⟩
  exact Except.noConfusion h

/-- C5 (amended): whenever the engine cannot retrieve a stream text of a
completed run, run_script on the hosted-engine strategy silently
substitutes the empty string for each missing stream and returns Ok
rather than an error. -/
theorem capture_missing_substitutes_empty (cmd : String) (v b : Bool) :
    run_powershell (constEngine (PsOutput.mk b none none)) cmd v =
      Except.ok (ProcessOutput.new (if b then 0 else 1) ("") ("")) := by
  rfl
